import Mathlib

/-!
# Verification of the go-observability-lab telemetry and service chain

Shallow embedding of the repository's core logic:

* `SetupOTelSDK` / the aggregate `shutdown` closure (internal/otel, `part_000`;
  `otel.go` is the same logic without the service-name/endpoint parameters),
* the process lifecycle function `run` (app-a `part_001`; app-b `part_002` and
  `cmd/app-c/main.go` are the same control flow),
* the HTTP handlers `handleRoot`, `handleHealth` and the outbound helpers
  `callAppB` / `callAppC` of the three service nodes.

Go conventions used by the embedding:

* A Go `error` value is modelled as a flattened list of atomic error messages
  (`GoError`); the empty list is Go `nil`.  `errors.Join` concatenates the
  flattened message lists of its two arguments (Go: `Join` returns `nil` when
  both are `nil`, and its `Unwrap` tree enumerates the non-nil errors in
  argument order).
* Effects that matter to the claims (invoking a teardown callback, installing
  a global provider, span start/attribute/error/end) are made explicit as
  event lists, in program order.
* The unknown outcomes of external collaborators (the OTLP/stdout exporter
  constructors, the network listener, the downstream HTTP exchange) are inputs
  of the embedded functions; the functions themselves are translated line by
  line from the source.
-/

namespace GoObsLab

/-- A Go `error` value, flattened to its list of atomic error messages.
`[]` is Go `nil`. -/
abbrev GoError := List String

/-- `errors.Join a b`: nil when both arguments are nil, otherwise the composite
error holding the non-nil errors of `a` followed by those of `b`. -/
def errJoin (a b : GoError) : GoError := a ++ b

/-- Embed a single Go error returned by one call (`nil` or one atomic error)
into `GoError`. -/
def errOfOpt : Option String → GoError
  | none => []
  | some m => [m]

/-- A registered teardown callback (`tracerProvider.Shutdown`, ...):
its name and the single Go error it returns when invoked. -/
structure Callback where
  name : String
  result : Option String
  deriving DecidableEq, Repr

/-- One invocation of the aggregate `shutdown` closure
(src/unnamed/part_000 lines 27-34, src/otel.go lines 31-38):

    var err error
    for _, fn := range shutdownFuncs { err = errors.Join(err, fn(ctx)) }
    shutdownFuncs = nil
    return err

Returns the list of invoked callbacks (in loop order), the joined error, and
the registry left behind (`shutdownFuncs = nil`). -/
def shutdownStep (funcs : List Callback) : List String × GoError × List Callback :=
  (funcs.map (·.name),
   funcs.foldl (fun e f => errJoin e (errOfOpt f.result)) [],
   [])

/-- The fold of `errors.Join` over the loop, with an arbitrary accumulator,
collects exactly the non-nil callback errors after the accumulator. -/
theorem shutdown_fold_eq (funcs : List Callback) (acc : GoError) :
    funcs.foldl (fun e f => errJoin e (errOfOpt f.result)) acc
      = acc ++ funcs.filterMap (·.result) := by
  induction funcs generalizing acc with
  | nil => simp
  | cons f fs ih =>
    rw [List.foldl_cons, ih]
    cases hf : f.result <;>
      simp [errJoin, errOfOpt, hf, List.filterMap_cons, List.append_assoc]

/-- The three telemetry providers created by `SetupOTelSDK`. -/
inductive Provider
  | tracer
  | meter
  | logger
  deriving DecidableEq, Repr

/-- Observable effects of one run of `SetupOTelSDK`, in program order. -/
inductive SetupEv
  /-- `otel.SetTextMapPropagator(prop)` with the composite
  trace-context + baggage propagator. -/
  | setPropagator
  /-- the `newXxxProvider` constructor call for one provider. -/
  | construct (p : Provider)
  /-- `otel.SetTracerProvider` / `otel.SetMeterProvider` /
  `global.SetLoggerProvider`. -/
  | setProvider (p : Provider)
  /-- one registered teardown callback invoked by the `shutdown` closure,
  with the error it returned. -/
  | teardown (name : String) (res : Option String)
  deriving DecidableEq, Repr

/-- The outcome of one `newXxxProvider` constructor call: a construction
error, or a provider whose `Shutdown` method is the given callback. -/
abbrev CtorResult := Except String Callback

/-- Did the constructor fail? -/
def ctorFailed : CtorResult → Bool
  | .error _ => true
  | .ok _ => false

/-- The `shutdown` closure run over a registry, as it happens inside
`handleErr`: joined error plus the teardown events it emits. -/
def runShutdown (funcs : List Callback) : GoError × List SetupEv :=
  ((shutdownStep funcs).2.1, funcs.map fun f => .teardown f.name f.result)

/-- What one run of `SetupOTelSDK` leaves behind. -/
structure SetupResult where
  /-- the `shutdownFuncs` slice captured by the returned `shutdown` closure,
  as it stands when `SetupOTelSDK` returns. -/
  registry : List Callback
  /-- the error returned by `SetupOTelSDK` (second return value). -/
  err : GoError
  /-- all effects performed during the run, in program order. -/
  events : List SetupEv
  deriving DecidableEq, Repr

/-- `SetupOTelSDK(ctx, serviceName, otlpEndpoint)`
(src/unnamed/part_000 lines 23-76; src/otel.go lines 24-77 is identical
control flow).  The outcomes of the three provider constructors are inputs.

Control flow, line by line: install the composite propagator; construct the
tracer provider - on error `handleErr(err)` (which joins the construction
error with the result of running `shutdown` on the callbacks registered so
far, clearing the registry) and return; otherwise append its `Shutdown` to
`shutdownFuncs` and set the global tracer provider; same for the meter and
logger providers; finally return the `shutdown` closure and a nil error. -/
def SetupOTelSDK (tR mR lR : CtorResult) : SetupResult :=
  let evProp : List SetupEv := [.setPropagator]
  match tR with
  | .error e =>
    let sd := runShutdown []
    { registry := [], err := errJoin [e] sd.1,
      events := evProp ++ [.construct .tracer] ++ sd.2 }
  | .ok tp =>
    let evT := evProp ++ [.construct .tracer, .setProvider .tracer]
    match mR with
    | .error e =>
      let sd := runShutdown [tp]
      { registry := [], err := errJoin [e] sd.1,
        events := evT ++ [.construct .meter] ++ sd.2 }
    | .ok mp =>
      let evM := evT ++ [.construct .meter, .setProvider .meter]
      match lR with
      | .error e =>
        let sd := runShutdown [tp, mp]
        { registry := [], err := errJoin [e] sd.1,
          events := evM ++ [.construct .logger] ++ sd.2 }
      | .ok lp =>
        { registry := [tp, mp, lp], err := [],
          events := evM ++ [.construct .logger, .setProvider .logger] }

/-- The teardown callbacks invoked during a run, in order. -/
def teardownLog (evs : List SetupEv) : List String :=
  evs.filterMap fun ev =>
    match ev with
    | .teardown n _ => some n
    | _ => none

/-- The providers successfully constructed before the first construction
failure (statement vocabulary: "already successfully built" pipelines). -/
def builtBeforeFailure (tR mR lR : CtorResult) : List Callback :=
  match tR with
  | .error _ => []
  | .ok tp =>
    match mR with
    | .error _ => [tp]
    | .ok mp =>
      match lR with
      | .error _ => [tp, mp]
      | .ok _ => []

/-- The process-wide globals mutated by `SetupOTelSDK`. -/
structure Globals where
  propagatorSet : Bool
  tracerSet : Bool
  meterSet : Bool
  loggerSet : Bool
  deriving DecidableEq, Repr

/-- Replay one setup event onto the globals. -/
def applyEv (g : Globals) : SetupEv → Globals
  | .setPropagator => { g with propagatorSet := true }
  | .setProvider .tracer => { g with tracerSet := true }
  | .setProvider .meter => { g with meterSet := true }
  | .setProvider .logger => { g with loggerSet := true }
  | .construct _ => g
  | .teardown _ _ => g

/-- The globals after a run, starting from a fresh process. -/
def globalsAfter (evs : List SetupEv) : Globals :=
  evs.foldl applyEv ⟨false, false, false, false⟩

/-- What resolves the `select` in `run` once the listener is started:
either the listener goroutine delivers an error on `srvErr` first, or the
interrupt signal fires (`ctx.Done()`) and `srv.Shutdown` then returns the
drain error (`none` on a clean drain). -/
inductive ListenOutcome
  | listenerFailed (e : String)
  | interrupted (drainErr : Option String)
  deriving DecidableEq, Repr

/-- Outcome of one execution of `run`. -/
structure RunResult where
  /-- the error value `run` actually returns to `main`. -/
  returned : GoError
  /-- the value the deferred closure leaves in the local variable `err`
  after joining the teardown error. -/
  localErrAfterDefer : GoError
  /-- whether the deferred `otelShutdown` invocation ran. -/
  deferredTeardownRan : Bool
  deriving DecidableEq, Repr

/-- `run()` (src/unnamed/part_001 lines 32-75; part_002 and
src/cmd/app-c/main.go lines 31-71 are the same control flow).

`run` is declared `func run() error` with an UNNAMED result.  In Go,
`return err` copies the current value of the local `err` into the result
slot before deferred functions execute, and a deferred assignment to the
local `err` does not change the result of the function.  So:

* setup failure: `return err` before the deferred join is even registered;
* listener failure: `case err = <-srvErr: return err` returns the listener
  error; the deferred closure then computes
  `errors.Join(err, otelShutdown(ctx))` into the local `err` only;
* interrupt: `err = srv.Shutdown(...); return err` returns the drain error;
  again the deferred join lands only in the local variable.

`returned` is the result slot, `localErrAfterDefer` the local variable
after the defer. -/
def run (tR mR lR : CtorResult) (lo : ListenOutcome) : RunResult :=
  let s := SetupOTelSDK tR mR lR
  match s.err with
  | e :: rest =>
    { returned := e :: rest, localErrAfterDefer := e :: rest,
      deferredTeardownRan := false }
  | [] =>
    let td := (shutdownStep s.registry).2.1
    match lo with
    | .listenerFailed e =>
      { returned := [e], localErrAfterDefer := errJoin [e] td,
        deferredTeardownRan := true }
    | .interrupted d =>
      { returned := errOfOpt d, localErrAfterDefer := errJoin (errOfOpt d) td,
        deferredTeardownRan := true }

/-- A JSON value, restricted to the shapes this system produces and
inspects (strings and objects). -/
inductive Json
  | str (s : String)
  | obj (fields : List (String × Json))

/-- Field lookup in a JSON object (first binding wins, as in a decoded
Go map rendered from unique keys). -/
def Json.get (j : Json) (k : String) : Option Json :=
  match j with
  | .obj fs => fs.lookup k
  | .str _ => none

/-- An HTTP response body: a JSON document written by `json.NewEncoder`,
or plain text written by `http.Error` / `w.Write`. -/
inductive Body
  | jsonBody (j : Json)
  | textBody (s : String)

/-- An HTTP response as seen at the interface: status code and body.
A handler that writes a body without calling `WriteHeader` gets the
implicit status 200. -/
structure HttpResponse where
  status : Nat
  body : Body

/-- The spans opened by the repository's own handlers, one constructor per
`tracer.Start` call site (span names "handleRoot", "callAppB", "callAppC"
in services app-a, app-b, app-c). -/
inductive SpanName
  | handleRootA
  | callSpanB
  | handleRootB
  | callSpanC
  | handleRootC
  deriving DecidableEq, Repr

/-- Span lifecycle events, in program order: `tracer.Start`,
`span.SetAttributes` (one event per attribute key), `span.RecordError`,
`span.End`. -/
inductive SpanEv
  | start (s : SpanName)
  | setAttr (s : SpanName) (key : String)
  | recordError (s : SpanName) (e : String)
  | endSpan (s : SpanName)
  deriving DecidableEq, Repr

/-- Environment behaviour for one outbound `GET url+"/"`:
`http.NewRequestWithContext` may fail; `client.Do` may fail (transport
error or the 5-second client timeout); otherwise a response with some
status code arrives, `io.ReadAll` on its body may fail, and the bytes read
either parse (`json.Unmarshal` yields a JSON value) or fail to parse with
a decode error. -/
inductive CallOutcome
  | reqErr (e : String)
  | doErr (e : String)
  | response (status : Nat) (readResult : Except String (Except String Json))

/-- Did the Go call return a non-nil error? -/
def exceptFailed : Except String Json → Bool
  | .error _ => true
  | .ok _ => false

/-- `callAppB(ctx, url)` (src/unnamed/part_001 lines 125-164): start span
"callAppB", set the url attribute, build and issue the request, read and
unmarshal the body - returning the first error encountered - and only on
full success set the status-code attribute and return the decoded map.
The deferred `span.End()` runs on every path.  Note the downstream status
code is only ever recorded as a span attribute, never branched on. -/
def callAppB (o : CallOutcome) : Except String Json × List SpanEv :=
  let pre : List SpanEv := [.start .callSpanB, .setAttr .callSpanB "app.b.url"]
  match o with
  | .reqErr e => (.error e, pre ++ [.endSpan .callSpanB])
  | .doErr e => (.error e, pre ++ [.endSpan .callSpanB])
  | .response _ (.error e) => (.error e, pre ++ [.endSpan .callSpanB])
  | .response _ (.ok (.error e)) => (.error e, pre ++ [.endSpan .callSpanB])
  | .response _ (.ok (.ok j)) =>
    (.ok j, pre ++ [.setAttr .callSpanB "http.status_code", .endSpan .callSpanB])

/-- `callAppC(ctx, url)` (src/unnamed/part_002 lines 122-161): identical to
`callAppB` up to service naming. -/
def callAppC (o : CallOutcome) : Except String Json × List SpanEv :=
  let pre : List SpanEv := [.start .callSpanC, .setAttr .callSpanC "app.c.url"]
  match o with
  | .reqErr e => (.error e, pre ++ [.endSpan .callSpanC])
  | .doErr e => (.error e, pre ++ [.endSpan .callSpanC])
  | .response _ (.error e) => (.error e, pre ++ [.endSpan .callSpanC])
  | .response _ (.ok (.error e)) => (.error e, pre ++ [.endSpan .callSpanC])
  | .response _ (.ok (.ok j)) =>
    (.ok j, pre ++ [.setAttr .callSpanC "http.status_code", .endSpan .callSpanC])

/-- `handleRoot` of app-a (src/unnamed/part_001 lines 91-123): start span
"handleRoot", set method/path attributes, call app B; on error record the
error on the span and answer `http.Error(w, err.Error(), 500)` (plain
text; the trailing newline framing of `http.Error` is elided); on success
answer the JSON object `\x7bservice, message, result\x7d` with implicit
status 200.  The deferred `span.End()` runs on both paths, after the
helper returned (so after the helper's own span ended). -/
def handleRootA (o : CallOutcome) : HttpResponse × List SpanEv :=
  let pre : List SpanEv := [.start .handleRootA,
    .setAttr .handleRootA "http.method", .setAttr .handleRootA "http.path"]
  let inner := callAppB o
  match inner.1 with
  | .error e =>
    (⟨500, .textBody e⟩,
     pre ++ inner.2 ++ [.recordError .handleRootA e, .endSpan .handleRootA])
  | .ok result =>
    (⟨200, .jsonBody (.obj [("service", .str "app-a"),
        ("message", .str "Chamou App B com sucesso"), ("result", result)])⟩,
     pre ++ inner.2 ++ [.endSpan .handleRootA])

/-- `handleRoot` of app-b (src/unnamed/part_002 lines 88-120): same shape as
app-a, forwarding to app C. -/
def handleRootB (o : CallOutcome) : HttpResponse × List SpanEv :=
  let pre : List SpanEv := [.start .handleRootB,
    .setAttr .handleRootB "http.method", .setAttr .handleRootB "http.path"]
  let inner := callAppC o
  match inner.1 with
  | .error e =>
    (⟨500, .textBody e⟩,
     pre ++ inner.2 ++ [.recordError .handleRootB e, .endSpan .handleRootB])
  | .ok result =>
    (⟨200, .jsonBody (.obj [("service", .str "app-b"),
        ("message", .str "Chamou App C com sucesso"), ("result", result)])⟩,
     pre ++ inner.2 ++ [.endSpan .handleRootB])

/-- `handleRoot` of app-c (src/cmd/app-c/main.go lines 87-113): the terminal
node starts its span, sets method/path attributes, sleeps 100ms to emulate
work, sets the success attribute and answers its fixed JSON payload with
implicit status 200; the deferred `span.End()` closes the span. -/
def handleRootC : HttpResponse × List SpanEv :=
  (⟨200, .jsonBody (.obj [("service", .str "app-c"),
      ("message", .str "Resposta final do App C"),
      ("status", .str "success")])⟩,
   [.start .handleRootC, .setAttr .handleRootC "http.method",
    .setAttr .handleRootC "http.path", .setAttr .handleRootC "response.status",
    .endSpan .handleRootC])

/-- `handleHealth` (identical in all three services, e.g.
src/unnamed/part_001 lines 166-169): `WriteHeader(200)` and body "OK";
the handler body opens no span. -/
def handleHealth : HttpResponse × List SpanEv :=
  (⟨200, .textBody "OK"⟩, [])

/-- The two routes each node's `newHTTPHandler` registers on its mux. -/
inductive Route
  | root
  | health
  deriving DecidableEq, Repr

/-- Node A's mux dispatch (src/unnamed/part_001 lines 77-89): "/" to
`handleRoot`, "/health" to `handleHealth`.  The embedding covers the spans
recorded by the repository's own handlers; the `otelhttp` middleware wrap
is an external collaborator outside the repository. -/
def appA_serve (r : Route) (o : CallOutcome) : HttpResponse × List SpanEv :=
  match r with
  | .root => handleRootA o
  | .health => handleHealth

/-- Node B's mux dispatch (src/unnamed/part_002 lines 74-86). -/
def appB_serve (r : Route) (o : CallOutcome) : HttpResponse × List SpanEv :=
  match r with
  | .root => handleRootB o
  | .health => handleHealth

/-- Node C's mux dispatch (src/cmd/app-c/main.go lines 73-85); the terminal
node issues no outbound call. -/
def appC_serve (r : Route) : HttpResponse × List SpanEv :=
  match r with
  | .root => handleRootC
  | .health => handleHealth

/-- `json.Unmarshal` applied to a body produced by one of this system's own
nodes: a JSON body decodes to itself; the plain-text bodies the system
writes (error prose from `http.Error`, "OK") are not valid JSON documents. -/
def Body.decodeJson : Body → Except String Json
  | .jsonBody j => .ok j
  | .textBody s => .error ("invalid JSON: " ++ s)

/-- The `CallOutcome` an upstream node observes when the downstream node
answered with response `r` and the network delivered it intact. -/
def forwardOutcome (r : HttpResponse) : CallOutcome :=
  .response r.status (.ok r.body.decodeJson)

/-- Node A's response on GET / in the healthy-chain scenario: B's call to C
sees C's actual response, and A's call to B sees B's actual response. -/
def chainResponseA : HttpResponse :=
  (handleRootA (forwardOutcome (handleRootB (forwardOutcome handleRootC.1)).1)).1

/-- Field lookup inside a JSON response body (none for a text body). -/
def HttpResponse.jsonField (r : HttpResponse) (k : String) : Option Json :=
  match r.body with
  | .jsonBody j => j.get k
  | .textBody _ => none

/-- Statement vocabulary for C6: the outcomes the claim classifies as
failures - request creation failed, transport error or timeout, body read
failed, or body not valid JSON. -/
def outcomeFails : CallOutcome → Bool
  | .reqErr _ => true
  | .doErr _ => true
  | .response _ (.error _) => true
  | .response _ (.ok (.error _)) => true
  | .response _ (.ok (.ok _)) => false

/-- Is this event the end of span `s`? -/
def isEndOf (s : SpanName) : SpanEv → Bool
  | .endSpan t => t == s
  | _ => false

/-- Is this event the start of span `s`? -/
def isStartOf (s : SpanName) : SpanEv → Bool
  | .start t => t == s
  | _ => false

/-- Does this event operate on span `s` at all? -/
def touches (s : SpanName) : SpanEv → Bool
  | .start t => t == s
  | .setAttr t _ => t == s
  | .recordError t _ => t == s
  | .endSpan t => t == s

/-- Span discipline for span `s` in trace `tr`: exactly one end event;
exactly one start event, and it occurs before the end; and no event on `s`
(start, attribute, error recording, or another end) occurs after the end. -/
def spanWellScoped (tr : List SpanEv) (s : SpanName) : Bool :=
  let pre := tr.takeWhile fun ev => !(isEndOf s ev)
  let post := (tr.dropWhile fun ev => !(isEndOf s ev)).drop 1
  pre.countP (fun ev => isStartOf s ev) == 1 &&
  tr.countP (fun ev => isEndOf s ev) == 1 &&
  post.all fun ev => !(touches s ev)

/-- C1: once the aggregate shutdown has run (either invoked by the caller on
any registry, or internally by `handleErr` during a failed build, in which
case the returned closure already sees a cleared registry), every subsequent
invocation invokes no underlying teardown callback and returns a nil error. -/
theorem shutdown_second_invocation_noop :
    (∀ funcs : List Callback,
      shutdownStep (shutdownStep funcs).2.2 = ([], [], [])) ∧
    (∀ tR mR lR : CtorResult, (SetupOTelSDK tR mR lR).err ≠ [] →
      shutdownStep (SetupOTelSDK tR mR lR).registry = ([], [], [])) := by
  refine ⟨fun funcs => rfl, fun tR mR lR h => ?_⟩
  cases tR <;> cases mR <;> cases lR <;> first | rfl | exact absurd rfl h

/-- Witness for C1 at concrete inputs: a one-callback registry whose callback
fails, and a build whose tracer constructor fails. -/
theorem shutdown_second_invocation_noop_witness :
    shutdownStep (shutdownStep [⟨"tracer", some "x"⟩]).2.2 = ([], [], []) ∧
    shutdownStep (SetupOTelSDK (.error "boom") (.ok ⟨"meter", none⟩)
      (.ok ⟨"logger", none⟩)).registry = ([], [], []) :=
  ⟨shutdown_second_invocation_noop.1 [⟨"tracer", some "x"⟩],
   shutdown_second_invocation_noop.2 (.error "boom") (.ok ⟨"meter", none⟩)
     (.ok ⟨"logger", none⟩) (by decide)⟩

/-- C2: a single invocation of the aggregate shutdown invokes every registered
callback exactly once in registration order (even when earlier callbacks
fail), and its composite error is exactly the list of non-nil callback errors
in registration order - nil when all callbacks succeed. -/
theorem shutdown_invokes_all_in_order (funcs : List Callback) :
    (shutdownStep funcs).1 = funcs.map (·.name) ∧
    (shutdownStep funcs).2.1 = funcs.filterMap (·.result) := by
  refine ⟨rfl, ?_⟩
  simpa using shutdown_fold_eq funcs []

/-- C3: whenever one of the three provider constructors fails, `SetupOTelSDK`
returns a non-nil error, and the teardown callbacks invoked during the run
are exactly those of the pipelines successfully built before the failure, in
build order - no successfully-built pipeline is leaked. -/
theorem setup_failure_tears_down_built (tR mR lR : CtorResult)
    (h : ctorFailed tR = true ∨ ctorFailed mR = true ∨ ctorFailed lR = true) :
    (SetupOTelSDK tR mR lR).err ≠ [] ∧
    teardownLog (SetupOTelSDK tR mR lR).events
      = (builtBeforeFailure tR mR lR).map (·.name) := by
  cases tR <;> cases mR <;> cases lR <;>
    simp_all [SetupOTelSDK, runShutdown, shutdownStep, teardownLog,
      builtBeforeFailure, errJoin, ctorFailed]

/-- Witness for C3: the meter constructor fails after the tracer was built;
the run returns an error and tears the tracer down. -/
theorem setup_failure_tears_down_built_witness :
    (SetupOTelSDK (.ok ⟨"tracer", none⟩) (.error "boom")
      (.ok ⟨"logger", none⟩)).err ≠ [] ∧
    teardownLog (SetupOTelSDK (.ok ⟨"tracer", none⟩) (.error "boom")
        (.ok ⟨"logger", none⟩)).events
      = (builtBeforeFailure (.ok ⟨"tracer", none⟩) (.error "boom")
          (.ok ⟨"logger", none⟩)).map (·.name) :=
  setup_failure_tears_down_built (.ok ⟨"tracer", none⟩) (.error "boom")
    (.ok ⟨"logger", none⟩) (Or.inr (Or.inl (by decide)))

/-- C10: `SetupOTelSDK` installs the composite propagator as its very first
effect - before any exporter is constructed - and whenever the build returns
a construction error, the propagator is still installed in the process-wide
globals at the end of the run. -/
theorem setup_propagator_installed_first (tR mR lR : CtorResult)
    (h : (SetupOTelSDK tR mR lR).err ≠ []) :
    (SetupOTelSDK tR mR lR).events.head? = some .setPropagator ∧
    (globalsAfter (SetupOTelSDK tR mR lR).events).propagatorSet = true := by
  cases tR <;> cases mR <;> cases lR <;>
    simp_all [SetupOTelSDK, runShutdown, shutdownStep, globalsAfter, applyEv,
      errJoin]

/-- Witness for C10: a run whose tracer constructor fails still has the
propagator installed first and left installed. -/
theorem setup_propagator_installed_first_witness :
    (SetupOTelSDK (.error "boom") (.ok ⟨"meter", none⟩)
      (.ok ⟨"logger", none⟩)).events.head? = some .setPropagator ∧
    (globalsAfter (SetupOTelSDK (.error "boom") (.ok ⟨"meter", none⟩)
      (.ok ⟨"logger", none⟩)).events).propagatorSet = true :=
  setup_propagator_installed_first (.error "boom") (.ok ⟨"meter", none⟩)
    (.ok ⟨"logger", none⟩) (by decide)

/-- C4 (code evaluated at the failing input): setup succeeds with a tracer
pipeline whose teardown fails with "x"; the process is interrupted and the
drain is clean.  Because `run` has an unnamed result, the deferred
`errors.Join` lands only in the local variable: `run` returns nil while the
teardown error "x" is dropped, contradicting the claim that the returned
error merges in any teardown error. -/
theorem run_drops_teardown_error :
    (run (.ok ⟨"tracer", some "x"⟩) (.ok ⟨"meter", none⟩)
      (.ok ⟨"logger", none⟩) (.interrupted none)).returned = [] ∧
    (run (.ok ⟨"tracer", some "x"⟩) (.ok ⟨"meter", none⟩)
      (.ok ⟨"logger", none⟩) (.interrupted none)).localErrAfterDefer = ["x"] ∧
    (run (.ok ⟨"tracer", some "x"⟩) (.ok ⟨"meter", none⟩)
      (.ok ⟨"logger", none⟩) (.interrupted none)).deferredTeardownRan = true := by
  refine ⟨rfl, rfl, rfl⟩

/-- C5: on GET / with nodes B and C both answering successfully, node A
responds 200 with a JSON object whose "service" is "app-a" and in which
result.result.status is "success" (A wraps B's decoded response, which
wraps C's terminal payload). -/
theorem chain_success_wraps_results :
    chainResponseA.status = 200 ∧
    chainResponseA.jsonField "service" = some (.str "app-a") ∧
    (chainResponseA.jsonField "result" >>= fun r =>
      r.get "result" >>= fun r2 => r2.get "status") = some (.str "success") := by
  refine ⟨rfl, rfl, rfl⟩

/-- C6: an outbound forwarding call fails exactly when the request cannot be
created or issued, the body cannot be read, or the body is not valid JSON;
and for a delivered response the call's result is independent of the
downstream HTTP status code (the status is never consulted). -/
theorem call_fails_iff_transport_or_decode (o : CallOutcome) (s s' : Nat)
    (r : Except String (Except String Json)) :
    exceptFailed (callAppB o).1 = outcomeFails o ∧
    exceptFailed (callAppC o).1 = outcomeFails o ∧
    (callAppB (.response s r)).1 = (callAppB (.response s' r)).1 ∧
    (callAppC (.response s r)).1 = (callAppC (.response s' r)).1 := by
  refine ⟨?_, ?_, ?_, ?_⟩
  · rcases o with e | e | ⟨st, rr⟩
    · rfl
    · rfl
    · rcases rr with e | rr
      · rfl
      · rcases rr with e | j <;> rfl
  · rcases o with e | e | ⟨st, rr⟩
    · rfl
    · rfl
    · rcases rr with e | rr
      · rfl
      · rcases rr with e | j <;> rfl
  · rcases r with e | rr
    · rfl
    · rcases rr with e | j <;> rfl
  · rcases r with e | rr
    · rfl
    · rcases rr with e | j <;> rfl

/-- C7: when the outbound call of a non-terminal node fails with error `e`,
the root handler records `e` on its request-scoped span and answers HTTP 500
with exactly the error string as a plain-text body - the JSON success body
is not written on that path. -/
theorem handler_error_answers_500 (o o' : CallOutcome) (e e' : String)
    (hA : (callAppB o).1 = .error e) (hB : (callAppC o').1 = .error e') :
    (handleRootA o).1 = ⟨500, .textBody e⟩ ∧
    SpanEv.recordError .handleRootA e ∈ (handleRootA o).2 ∧
    (handleRootB o').1 = ⟨500, .textBody e'⟩ ∧
    SpanEv.recordError .handleRootB e' ∈ (handleRootB o').2 := by
  refine ⟨?_, ?_, ?_, ?_⟩ <;> simp [handleRootA, handleRootB, hA, hB]

/-- Witness for C7: concrete transport failures on both hops. -/
theorem handler_error_answers_500_witness :
    (handleRootA (.doErr "refused")).1 = ⟨500, .textBody "refused"⟩ ∧
    SpanEv.recordError .handleRootA "refused" ∈ (handleRootA (.doErr "refused")).2 ∧
    (handleRootB (.doErr "no route")).1 = ⟨500, .textBody "no route"⟩ ∧
    SpanEv.recordError .handleRootB "no route" ∈ (handleRootB (.doErr "no route")).2 :=
  handler_error_answers_500 (.doErr "refused") (.doErr "no route")
    "refused" "no route" rfl rfl

/-- C8: on every exit path of every root handler (success, transport
failure, read failure, decode failure), each span opened by the handler or
its outbound helper is started once and ended exactly once, the end occurs
after the start, and no attribute or error recording on that span occurs
after its end. -/
theorem span_lifecycle_discipline (o : CallOutcome) :
    (spanWellScoped (handleRootA o).2 .handleRootA &&
     spanWellScoped (handleRootA o).2 .callSpanB &&
     spanWellScoped (handleRootB o).2 .handleRootB &&
     spanWellScoped (handleRootB o).2 .callSpanC &&
     spanWellScoped handleRootC.2 .handleRootC) = true := by
  rcases o with e | e | ⟨st, rr⟩
  · rfl
  · rfl
  · rcases rr with e | rr
    · rfl
    · rcases rr with e | j <;> rfl

/-- C9: GET /health on any node answers status 200 with body "OK", and the
repository's handlers record no span while serving it. -/
theorem health_ok_and_untraced (o : CallOutcome) :
    appA_serve .health o = (⟨200, .textBody "OK"⟩, []) ∧
    appB_serve .health o = (⟨200, .textBody "OK"⟩, []) ∧
    appC_serve .health = (⟨200, .textBody "OK"⟩, []) :=
  ⟨rfl, rfl, rfl⟩

end GoObsLab
